import Mathlib

set_option maxHeartbeats 2000000
set_option maxRecDepth 8000

/-!
Shallow embedding of the tio.run protocol client (`src/tioRunner.ts`) of the
cph repository, together with theorems settling the specification claims.

Modelling conventions:
* JavaScript strings are `String` (code points); UTF-8 byte lengths use
  `String.utf8ByteSize`, matching `Buffer.byteLength(value, 'utf8')`.
* The compression layers (`deflateRawSync` on the request, `gunzipSync` on the
  response) are injective byte codings applied outside the logic the claims
  are about; the model works with the uncompressed payload/response text.
* Network I/O, timers and the external abort signal are oracles supplied as
  explicit inputs; every network call is recorded in an event trace.
* Regex matching (`SCRIPT_REGEX`, `RUN_URL_REGEX`, `DEBUG_REGEX`) is embedded
  as executable matchers reproducing the JS engine's leftmost/greedy
  behaviour on these particular patterns (in each pattern every quantified
  class excludes the character that follows it, so greedy matching is
  maximal-munch and deterministic).
-/

namespace TioRun

/-- `[0-9a-f]` character class of `SCRIPT_REGEX`. -/
def isHexLower (c : Char) : Bool :=
  (('0' ≤ c) && (c ≤ '9')) || (('a' ≤ c) && (c ≤ 'f'))

/-- `[\d.]` character class of `DEBUG_REGEX`. -/
def isDigitOrDot (c : Char) : Bool := c.isDigit || c == '.'

/-- Match a literal at the head of the input, returning the remainder. -/
def dropLit (lit s : List Char) : Option (List Char) :=
  if lit.isPrefixOf s then some (s.drop lit.length) else none

/-- Take a non-empty maximal run of characters satisfying `cls`
(the deterministic reading of a greedy `cls+` followed by a character
outside `cls`). -/
def takeNum (cls : Char → Bool) (s : List Char) : Option (List Char × List Char) :=
  let n := s.takeWhile cls
  if n.isEmpty then none else some (n, s.drop n.length)

/-- Leftmost occurrence of `sep` in the input: `some (a, b)` with
input `= a ++ sep ++ b` and `a` shortest. -/
def splitFirst (sep : List Char) : List Char → Option (List Char × List Char)
  | [] => none
  | c :: cs =>
    if sep.isPrefixOf (c :: cs) then some ([], (c :: cs).drop sep.length)
    else (splitFirst sep cs).map (fun p => (c :: p.1, p.2))

/-- Fuelled worker for `jsSplit`. -/
def jsSplitAux (sep : List Char) : Nat → List Char → List (List Char)
  | 0, s => [s]
  | fuel + 1, s =>
    match splitFirst sep s with
    | none => [s]
    | some (a, b) => a :: jsSplitAux sep fuel b

/-- JavaScript `String.prototype.split` on a string separator: split on every
non-overlapping occurrence, left to right; an empty separator splits into
single characters. -/
def jsSplit (s sep : List Char) : List (List Char) :=
  if sep.isEmpty then s.map (fun c => [c]) else jsSplitAux sep (s.length + 1) s

/-- Digit string to number, as JavaScript `Number` on a `\d+` capture. -/
def digitsToNat (ds : List Char) : Nat :=
  ds.foldl (fun n c => 10 * n + (c.toNat - 48)) 0

/-- JavaScript `parseFloat`, restricted to the `[\d.]+` strings produced by
`DEBUG_REGEX`: optional integer digits, optionally a dot and fraction digits,
everything after a second dot ignored; `none` models `NaN`. -/
def jsParseFloat (s : String) : Option ℚ :=
  let ds := s.data
  let ip := ds.takeWhile Char.isDigit
  let rest := ds.drop ip.length
  match rest with
  | '.' :: rest2 =>
    let fp := rest2.takeWhile Char.isDigit
    if ip.isEmpty && fp.isEmpty then none
    else some ((digitsToNat ip : ℚ) + (digitsToNat fp : ℚ) / ((10 : ℚ) ^ fp.length))
  | _ => if ip.isEmpty then none else some (digitsToNat ip)

/-! ## Request encoder (`encodeLength`, `encodeField`, `buildRequestBody`) -/

/-- `Buffer.byteLength(value, 'utf8')`. -/
def encodeLength (value : String) : Nat := value.utf8ByteSize

/-- `` `${label}\0${encodeLength(value)}\0${value}` ``. -/
def encodeField (label value : String) : String :=
  label ++ "\x00" ++ toString (encodeLength value) ++ "\x00" ++ value

/-- External abort signal as observed by `executeRequest`: whether it was
already aborted when the request started, and whether it is aborted by the
time the catch handler inspects it. -/
structure SignalBehavior where
  preAborted : Bool
  abortedAtCatch : Bool
deriving DecidableEq

/-- The `NormalizedOptions` record of `tioRunner.ts`. -/
structure NormalizedOptions where
  language : String
  stdin : String
  timeout : Int
  argv : List String
  cflags : List String
  signal : Option SignalBehavior
deriving DecidableEq

/-- The uncompressed wire payload built by `buildRequestBody` (the source
then applies `deflateRawSync(payload, level 9)`, an injective coding not
modelled here). The string literal chunks mirror the template literal of
the source exactly. -/
def buildRequestBody (code : String) (o : NormalizedOptions) : String :=
  let cflags := String.join (o.cflags.map (fun flag => flag ++ "\x00"))
  let argv := String.join (o.argv.map (fun arg => arg ++ "\x00"))
  "Vargs\x00" ++ toString o.argv.length ++ "\x00" ++ argv ++
    "Vlang\x00\x31\x00" ++ o.language ++
    "\x00VTIO_CFLAGS\x00" ++ toString o.cflags.length ++ "\x00" ++ cflags ++
    "VTIO_OPTIONS\x00\x30\x00" ++
    encodeField "F.code.tio" code ++ encodeField "F.input.tio" o.stdin ++ "R"

/-- The spec's wire-frame field shape: `name, NUL, decimal length, NUL, raw`. -/
def wireField (name : String) (len : Nat) (raw : String) : String :=
  name ++ "\x00" ++ toString len ++ "\x00" ++ raw

/-- Null-terminate each entry and concatenate (shape of the `Vargs` and
`VTIO_CFLAGS` field bodies). -/
def nulJoin (xs : List String) : String :=
  String.join (xs.map (fun x => x ++ "\x00"))

instance {ε α : Type} [DecidableEq ε] [DecidableEq α] : DecidableEq (Except ε α) :=
  fun a b =>
    match a, b with
    | Except.ok x, Except.ok y =>
      decidable_of_iff (x = y) ⟨fun h => by rw [h], Except.ok.inj⟩
    | Except.error e, Except.error f =>
      decidable_of_iff (e = f) ⟨fun h => by rw [h], Except.error.inj⟩
    | Except.ok _, Except.error _ => isFalse (fun h => Except.noConfusion h)
    | Except.error _, Except.ok _ => isFalse (fun h => Except.noConfusion h)

/-! ## Errors, HTTP oracle, events -/

/-- Failure taxonomy of the client.  `executionAborted` models the
`ExecutionAbortedError` class (the spec's CancellationError); `parse` models
the two `throw new Error(...)` parse failures of the decoder (the spec's
ParseError); `fetchFailed`/`httpError`/`networkFailure` are transport-level
failures; `scriptUrlUnresolved`/`runUrlUnresolved` are the two resolution
failures; `abortUnattributed` is an `AbortError` rethrown because neither
the timer nor the external signal claimed it. -/
inductive TioError where
  | fetchFailed (path : String) (status : Nat)
  | scriptUrlUnresolved
  | runUrlUnresolved
  | httpError (status : Nat)
  | executionAborted
  | abortUnattributed
  | networkFailure
  | parse (msg : String)
deriving DecidableEq

/-- Result of a `GET` issued by `fetchText`. -/
structure HttpResponse where
  ok : Bool
  status : Nat
  text : String

/-- Network events a run can perform: a `GET` of a path (discovery) or the
execution `POST`. -/
inductive Event where
  | get (path : String)
  | post
deriving DecidableEq

/-- `fetchText`: `GET` the path and fail on a non-success status. -/
def fetchText (net : String → HttpResponse) (path : String) : Except TioError String :=
  let r := net path
  if r.ok then Except.ok r.text else Except.error (TioError.fetchFailed path r.status)

/-! ## Endpoint resolver (`SCRIPT_REGEX`, `RUN_URL_REGEX`, `ensureRunUrl`) -/

/-- Match `SCRIPT_REGEX` anchored at the head of the input; the capture is
`/static/<hex>-frontend.js`. -/
def scriptMatchAt (s : List Char) : Option String := do
  let s1 ← dropLit "<script src=\"/static/".data s
  let (hex, s2) ← takeNum isHexLower s1
  let _ ← dropLit "-frontend.js\" defer></script>".data s2
  pure (String.mk ("/static/".data ++ hex ++ "-frontend.js".data))

/-- `landingHtml.match(SCRIPT_REGEX)?.[1]`: leftmost match of the pattern. -/
def scriptMatch : List Char → Option String
  | [] => scriptMatchAt []
  | c :: cs => scriptMatchAt (c :: cs) <|> scriptMatch cs

/-- Match `RUN_URL_REGEX` at a line start: literal prefix, a non-empty
`[^"]+` capture, then `";` and the end of the line. -/
def runUrlMatchAt (s : List Char) : Option String := do
  let s1 ← dropLit "var runURL = \"/cgi-bin/static/".data s
  let (cap, s2) ← takeNum (fun c => c != '"') s1
  let s3 ← dropLit "\";".data s2
  match s3 with
  | [] => pure (String.mk cap)
  | '\n' :: _ => pure (String.mk cap)
  | _ => none

/-- Advance past the next newline (the next `^` anchor position of a
multiline regex). -/
def afterNewline : List Char → Option (List Char)
  | [] => none
  | '\n' :: rest => some rest
  | _ :: rest => afterNewline rest

/-- Fuelled scan over line starts. -/
def runUrlSearch : Nat → List Char → Option String
  | 0, _ => none
  | fuel + 1, s =>
    runUrlMatchAt s <|>
      match afterNewline s with
      | none => none
      | some rest => runUrlSearch fuel rest

/-- `frontendScript.match(RUN_URL_REGEX)?.[1]`. -/
def runUrlMatch (s : List Char) : Option String := runUrlSearch (s.length + 1) s

/-- The module-level mutable endpoint cache (`runUrl`, `nextRefreshAt`). -/
structure CacheState where
  runUrl : Option String
  nextRefreshAt : Nat
deriving DecidableEq

/-- `RUN_URL_REFRESH_MS = 850_000`. -/
def RUN_URL_REFRESH_MS : Nat := 850000

/-- `MIN_TIMEOUT_MS = 500`. -/
def MIN_TIMEOUT_MS : Int := 500

/-- `ensureRunUrl`, with the globals `runUrl`/`nextRefreshAt` passed as
explicit state, `Date.now()` as `now`, and the network as `net`.  Returns
the outcome, the state after the call, and the trace of `GET` events. -/
def ensureRunUrl (net : String → HttpResponse) (now : Nat) (st : CacheState) :
    Except TioError Unit × CacheState × List Event :=
  if st.runUrl.isSome ∧ now < st.nextRefreshAt then
    (Except.ok (), st, [])
  else
    match fetchText net "/" with
    | Except.error e => (Except.error e, st, [Event.get "/"])
    | Except.ok landingHtml =>
      match scriptMatch landingHtml.data with
      | none => (Except.error TioError.scriptUrlUnresolved, st, [Event.get "/"])
      | some scriptPath =>
        match fetchText net scriptPath with
        | Except.error e => (Except.error e, st, [Event.get "/", Event.get scriptPath])
        | Except.ok frontendScript =>
          match runUrlMatch frontendScript.data with
          | none =>
            (Except.error TioError.runUrlUnresolved, st,
              [Event.get "/", Event.get scriptPath])
          | some newRunUrl =>
            (Except.ok (), ⟨some newRunUrl, now + RUN_URL_REFRESH_MS⟩,
              [Event.get "/", Event.get scriptPath])

/-! ## Transport executor (`executeRequest`) -/

/-- What the execution `POST` promise does: settle with a response (whose
body, when `okFlag` holds, is carried here as the gunzipped text), reject
with an `AbortError`, or reject with some other network error. -/
inductive PostResult where
  | success (okFlag : Bool) (status : Nat) (content : String)
  | aborted
  | netError

/-- `options.signal.aborted` at the pre-flight check (`?.` on a missing
signal is falsy). -/
def signalPreAborted : Option SignalBehavior → Bool
  | none => false
  | some sb => sb.preAborted

/-- `options.signal?.aborted` inside the catch handler. -/
def signalAborted : Option SignalBehavior → Bool
  | none => false
  | some sb => sb.abortedAtCatch

/-- The statements of the internal timer's callback, in source order:
`timedOut = true; controller.abort();`. -/
inductive TimerAction where
  | setTimedOut
  | issueAbort
deriving DecidableEq

/-- The timer callback body of `executeRequest` (lines 97-100). -/
def timerCallback : List TimerAction := [TimerAction.setTimedOut, TimerAction.issueAbort]

/-- Effect of one timer-callback statement on the observable state. -/
structure TimerCtx where
  timedOut : Bool
  abortIssued : Bool
deriving DecidableEq

def applyTimerAction (c : TimerCtx) : TimerAction → TimerCtx
  | TimerAction.setTimedOut => ⟨true, c.abortIssued⟩
  | TimerAction.issueAbort => ⟨c.timedOut, true⟩

/-- `executeRequest`: pre-flight signal check, `POST`, and classification of
an `AbortError` by the `timedOut` flag first, the external signal second.
`timerFired` says whether the internal timer's callback ran (it runs
atomically, so by `timerCallback` order the flag is set when the abort is
observed).  Returns `(buffer?, timedOut)` on success plus the trace of the
`POST` (recorded whenever `fetch` is actually invoked). -/
def executeRequest (body : String) (sig : Option SignalBehavior)
    (post : String → PostResult) (timerFired : Bool) :
    Except TioError (Option String × Bool) × List Event :=
  if signalPreAborted sig then
    (Except.error TioError.executionAborted, [])
  else
    match post body with
    | PostResult.success okFlag status content =>
      if okFlag then (Except.ok (some content, false), [Event.post])
      else (Except.error (TioError.httpError status), [Event.post])
    | PostResult.aborted =>
      (if timerFired then Except.ok (none, true)
       else if signalAborted sig then Except.error TioError.executionAborted
       else Except.error TioError.abortUnattributed, [Event.post])
    | PostResult.netError => (Except.error TioError.networkFailure, [Event.post])

/-! ## Response decoder (`DEBUG_REGEX` and the tail of `runOnTio`) -/

/-- The captures of `DEBUG_REGEX`. -/
structure DebugMatch where
  debug : String
  realTime : String
  userTime : String
  sysTime : String
  cpuShare : String
  exitCode : String
deriving DecidableEq

/-- Parse the metric block of `DEBUG_REGEX` anchored at the head of the
input and required to consume it entirely:
`Real time: <num> s\nUser time: <num> s\nSys. time: <num> s\nCPU share: <num> %\nExit code: <digits>`
where `<num>` is a non-empty `[\d.]+` run. -/
def parseMetricsTail (s : List Char) :
    Option (List Char × List Char × List Char × List Char × List Char) := do
  let s1 ← dropLit "Real time: ".data s
  let (r, s1x) ← takeNum isDigitOrDot s1
  let s2 ← dropLit " s\nUser time: ".data s1x
  let (u, s2x) ← takeNum isDigitOrDot s2
  let s3 ← dropLit " s\nSys. time: ".data s2x
  let (sy, s3x) ← takeNum isDigitOrDot s3
  let s4 ← dropLit " s\nCPU share: ".data s3x
  let (c, s4x) ← takeNum isDigitOrDot s4
  let s5 ← dropLit " %\nExit code: ".data s4x
  let (e, s5x) ← takeNum Char.isDigit s5
  if s5x.isEmpty then pure (r, u, sy, c, e) else none

/-- Greedy split of the input into `([\s\S]*)` (as long as possible) and a
matching metric block ending the string — the match semantics of
`DEBUG_REGEX` under `String.prototype.match`. -/
def matchDebugAux :
    List Char →
      Option (List Char × (List Char × List Char × List Char × List Char × List Char))
  | [] => (parseMetricsTail []).map (fun m => ([], m))
  | c :: cs =>
    match matchDebugAux cs with
    | some (d, m) => some (c :: d, m)
    | none => (parseMetricsTail (c :: cs)).map (fun m => ([], m))

/-- `sections[1].match(DEBUG_REGEX)` with its six captures. -/
def matchDebug (s : String) : Option DebugMatch :=
  (matchDebugAux s.data).map
    (fun p =>
      match p with
      | (d, r, u, sy, c, e) =>
        ⟨String.mk d, String.mk r, String.mk u, String.mk sy, String.mk c, String.mk e⟩)

/-- The `TioResponse` record returned by `runOnTio`.  The four `parseFloat`
fields are `Option ℚ` (`none` models `NaN`); `exitCode` is `Number` of a
`\d+` capture. -/
structure TioResponse where
  output : String
  timedOut : Bool
  realTime : Option ℚ
  userTime : Option ℚ
  sysTime : Option ℚ
  CPUshare : Option ℚ
  exitCode : Nat
deriving DecidableEq

/-- `content.substring(16).split(content.substring(0, 16))`. -/
def sectionsOf (content : String) : List (List Char) :=
  jsSplit (content.data.drop 16) (content.data.take 16)

/-- Segment `i` of the delimiter-framed response. -/
def segment (content : String) (i : Nat) : Option (List Char) :=
  (sectionsOf content).get? i

/-- The `DEBUG_REGEX` match of segment 1, when both exist. -/
def segMatch (content : String) : Option DebugMatch :=
  (segment content 1).bind (fun s1 => matchDebug (String.mk s1))

/-- The decoding tail of `runOnTio` (lines 191-215), applied to the
gunzipped response text: read the 16-character delimiter, split the
remainder, require two segments, match `DEBUG_REGEX` on segment 1, and
assemble the result (`sections[0] || debug` picks the debug text when
segment 0 is empty). -/
def decodeContent (timedOut : Bool) (content : String) : Except TioError TioResponse :=
  match sectionsOf content with
  | s0 :: s1 :: _ =>
    match matchDebug (String.mk s1) with
    | none => Except.error (TioError.parse "Unable to parse tio.run diagnostics output")
    | some m =>
      Except.ok
        ⟨if s0.isEmpty then m.debug else String.mk s0, timedOut,
          jsParseFloat m.realTime, jsParseFloat m.userTime, jsParseFloat m.sysTime,
          jsParseFloat m.cpuShare, digitsToNat m.exitCode.data⟩
  | _ => Except.error (TioError.parse "Unexpected response format received from tio.run")

/-- Does the outcome carry one of the decoder's fatal parse failures? -/
def isParseError : Except TioError TioResponse → Bool
  | Except.error (TioError.parse _) => true
  | _ => false

/-! ## `runOnTio` -/

/-- The public options record (`argv`/`cflags`/`signal` optional; `stdin`
guarded by `?? ''` in the source, hence optional here). -/
structure TioRunOptions where
  language : String
  stdin : Option String
  timeout : Int
  argv : Option (List String)
  cflags : Option (List String)
  signal : Option SignalBehavior

/-- `Math.max(MIN_TIMEOUT_MS, options.timeout)`. -/
def effectiveTimeout (t : Int) : Int := max MIN_TIMEOUT_MS t

/-- The normalization block at the top of `runOnTio` (lines 165-172). -/
def normalizeOptions (o : TioRunOptions) : NormalizedOptions :=
  ⟨o.language, o.stdin.getD "", effectiveTimeout o.timeout, o.argv.getD [],
    o.cflags.getD [], o.signal⟩

/-- The world a single invocation runs against: the `GET` oracle, the
`POST` oracle, the clock, and whether the internal timer fired before the
`POST` settled. -/
structure RunEnv where
  net : String → HttpResponse
  post : String → PostResult
  now : Nat
  timerFired : Bool

/-- `runOnTio`: normalize, resolve the endpoint, build the body, execute,
then either synthesize the timeout sentinel result (`buffer === null`) or
decode the response.  Returns the outcome, the cache state after the call,
and the trace of network events in order. -/
def runOnTio (env : RunEnv) (st : CacheState) (code : String) (opts : TioRunOptions) :
    Except TioError TioResponse × CacheState × List Event :=
  match ensureRunUrl env.net env.now st with
  | (Except.error e, st', tr) => (Except.error e, st', tr)
  | (Except.ok _, st', tr) =>
    match executeRequest (buildRequestBody code (normalizeOptions opts))
        (normalizeOptions opts).signal env.post env.timerFired with
    | (Except.error e, tr2) => (Except.error e, st', tr ++ tr2)
    | (Except.ok (none, _), tr2) =>
      (Except.ok
        ⟨"Request timed out after " ++ toString (normalizeOptions opts).timeout ++ "ms",
          true, some (((normalizeOptions opts).timeout : ℚ) / 1000),
          some (((normalizeOptions opts).timeout : ℚ) / 1000),
          some (((normalizeOptions opts).timeout : ℚ) / 1000), some 0, 124⟩,
        st', tr ++ tr2)
    | (Except.ok (some content, timedOut), tr2) =>
      (decodeContent timedOut content, st', tr ++ tr2)

/-! ## Concrete sample worlds used by witnesses and counterexamples -/

/-- A landing page whose script tag matches `SCRIPT_REGEX`. -/
def landing0 : String :=
  "<html><script src=\"/static/ab12-frontend.js\" defer></script></html>"

/-- A frontend script whose first line matches `RUN_URL_REGEX`. -/
def script0 : String := "var runURL = \"/cgi-bin/static/zyx9\";"

/-- A well-behaved discovery network. -/
def netW : String → HttpResponse := fun path =>
  if path = "/" then ⟨true, 200, landing0⟩
  else if path = "/static/ab12-frontend.js" then ⟨true, 200, script0⟩
  else ⟨false, 404, ""⟩

/-- A network whose landing-page fetch fails with a 500. -/
def netBad : String → HttpResponse := fun _ => ⟨false, 500, ""⟩

/-- The 16-character delimiter of the sample response. -/
def delim0 : String := "0123456789ABCDEF"

/-- Sample diagnostics segment: debug text then the metric block. -/
def tail0 : String :=
  "dbg\nReal time: 0.12 s\nUser time: 0.03 s\nSys. time: 0.01 s\nCPU share: 33.3 %\nExit code: 0"

/-- Sample decompressed response: delimiter, stdout, delimiter, diagnostics. -/
def content0 : String := delim0 ++ "hello" ++ delim0 ++ tail0

/-- The `DEBUG_REGEX` captures of `tail0`. -/
def dbgm0 : DebugMatch := ⟨"dbg\n", "0.12", "0.03", "0.01", "33.3", "0"⟩

/-- The decoded result of `content0`. -/
def resp0 : TioResponse :=
  ⟨"hello", false, some (0.12 : ℚ), some (0.03 : ℚ), some (0.01 : ℚ),
    some (33.3 : ℚ), 0⟩

/-- A `NormalizedOptions` record with empty argv/cflags and python3. -/
def oPy : NormalizedOptions := ⟨"python3", "", 500, [], [], none⟩

/-! ## Shared lemmas about literal concatenation -/

theorem str_empty_append (s : String) : "" ++ s = s := rfl

theorem toString_nat_one : toString (1 : Nat) = "1" := rfl

theorem toString_nat_zero : toString (0 : Nat) = "0" := rfl

theorem merge_vargs (s : String) : "Vargs" ++ ("\x00" ++ s) = "Vargs\x00" ++ s := by
  rw [← String.append_assoc]; rfl

theorem merge_vlang (s : String) :
    "Vlang" ++ ("\x00" ++ ("1" ++ ("\x00" ++ s))) = "Vlang\x00\x31\x00" ++ s := by
  rw [← String.append_assoc, ← String.append_assoc, ← String.append_assoc]; rfl

theorem merge_cflags (s : String) :
    "\x00" ++ ("VTIO_CFLAGS" ++ ("\x00" ++ s)) = "\x00VTIO_CFLAGS\x00" ++ s := by
  rw [← String.append_assoc, ← String.append_assoc]; rfl

theorem merge_options (s : String) :
    "VTIO_OPTIONS" ++ ("\x00" ++ ("0" ++ ("\x00" ++ s))) = "VTIO_OPTIONS\x00\x30\x00" ++ s := by
  rw [← String.append_assoc, ← String.append_assoc, ← String.append_assoc]; rfl

/-! ## Claims about the request encoder (C2, C6, C7) -/

/-- Claim C2, amended: the encoder emits exactly the seven frame parts in
the protocol order, each shaped `name, NUL, decimal count-or-length, NUL,
raw bytes` — but the on-wire names are `Vargs`, `Vlang`, `VTIO_CFLAGS`,
`VTIO_OPTIONS`, `F.code.tio` and `F.input.tio` (not the spec's bare
`args`/`lang`/`CFLAGS`/`OPTIONS`/`code`/`input`), the lang value carries a
trailing NUL, and the terminator is the single byte `R`. -/
theorem c2_frame_structure :
    (∀ code o, buildRequestBody code o =
      wireField "Vargs" o.argv.length (nulJoin o.argv) ++
      wireField "Vlang" 1 (o.language ++ "\x00") ++
      wireField "VTIO_CFLAGS" o.cflags.length (nulJoin o.cflags) ++
      wireField "VTIO_OPTIONS" 0 "" ++
      wireField "F.code.tio" code.utf8ByteSize code ++
      wireField "F.input.tio" o.stdin.utf8ByteSize o.stdin ++ "R") ∧
    ("R" : String).length = 1 ∧ ("R" : String).utf8ByteSize = 1 := by
  refine ⟨fun code o => ?_, rfl, rfl⟩
  simp only [buildRequestBody, wireField, encodeField, encodeLength, nulJoin,
    toString_nat_one, toString_nat_zero, String.append_assoc, merge_vargs,
    merge_vlang, merge_cflags, merge_options, str_empty_append]

/-- Claim C2 counterexample: on a concrete request the emitted frame does
not begin with an `args`-named field as the claim requires — the first
field name on the wire is `Vargs`. -/
theorem c2_counterexample :
    buildRequestBody "x" oPy =
      "Vargs\x000\x00Vlang\x001\x00python3\x00VTIO_CFLAGS\x000\x00VTIO_OPTIONS\x000\x00F.code.tio\x001\x00xF.input.tio\x000\x00R" ∧
    ("args\x00".data).isPrefixOf (buildRequestBody "x" oPy).data = false ∧
    ("Vargs\x00".data).isPrefixOf (buildRequestBody "x" oPy).data = true :=
  ⟨by decide, by decide, by decide⟩

/-- Claim C6: the effective timeout is `max(500ms, requested)`: 1ms is
floored to 500ms, 500ms stays 500ms, and anything above 500ms is kept. -/
theorem c6_timeout_floor :
    effectiveTimeout 1 = 500 ∧ effectiveTimeout 500 = 500 ∧
      ∀ t : Int, 500 < t → effectiveTimeout t = t := by
  refine ⟨by decide, by decide, fun t ht => ?_⟩
  simp only [effectiveTimeout, MIN_TIMEOUT_MS]
  exact max_eq_right ht.le

theorem c6_timeout_floor_witness :
    (500 : Int) < 501 ∧ effectiveTimeout 501 = 501 :=
  ⟨by decide, c6_timeout_floor.2.2 501 (by decide)⟩

/-- Claim C7, amended: for the two fields whose prefix is a byte length
(`F.code.tio` and `F.input.tio`, written by `encodeField`) the decimal
prefix equals the UTF-8 byte count of the value, never the code-point
count — a 1-character, 3-byte value is prefixed with 3.  (The `Vargs` and
`VTIO_CFLAGS` prefixes are entry counts, and `Vlang`/`VTIO_OPTIONS` carry
the literal counts `1`/`0`.) -/
theorem c7_byte_length_prefix :
    (∀ label value, encodeField label value = wireField label value.utf8ByteSize value) ∧
    ("€" : String).length = 1 ∧ ("€" : String).utf8ByteSize = 3 ∧
    encodeField "F.code.tio" "€" = "F.code.tio\x003\x00€" :=
  ⟨fun _ _ => rfl, by decide, by decide, by decide⟩

/-- Claim C7 counterexample: in the concrete frame for language `cpp-gcc`
the `Vlang` field's decimal prefix is `1` while the UTF-8 byte count of the
field's value `cpp-gcc` is 7, so it is not true that every field value's
prefix is its UTF-8 byte count. -/
theorem c7_counterexample :
    buildRequestBody "x" ⟨"cpp-gcc", "", 500, [], [], none⟩ =
      "Vargs\x000\x00Vlang\x001\x00cpp-gcc\x00VTIO_CFLAGS\x000\x00VTIO_OPTIONS\x000\x00F.code.tio\x001\x00xF.input.tio\x000\x00R" ∧
    (jsSplit (buildRequestBody "x" ⟨"cpp-gcc", "", 500, [], [], none⟩).data
        ['\x00']).get? 3 = some "1".data ∧
    (jsSplit (buildRequestBody "x" ⟨"cpp-gcc", "", 500, [], [], none⟩).data
        ['\x00']).get? 4 = some "cpp-gcc".data ∧
    ("cpp-gcc" : String).utf8ByteSize = 7 ∧
    "1".data ≠ (toString (("cpp-gcc" : String).utf8ByteSize)).data :=
  ⟨by decide, by decide, by decide, by decide, by decide⟩

/-! ## Shared lemmas for the decoder claims -/

theorem parse_012 : jsParseFloat "0.12" = some (0.12 : ℚ) := by
  have h : jsParseFloat "0.12" = some (((0:ℕ) : ℚ) + ((12:ℕ) : ℚ) / (10:ℚ) ^ 2) := rfl
  rw [h]; norm_num

theorem parse_003 : jsParseFloat "0.03" = some (0.03 : ℚ) := by
  have h : jsParseFloat "0.03" = some (((0:ℕ) : ℚ) + ((3:ℕ) : ℚ) / (10:ℚ) ^ 2) := rfl
  rw [h]; norm_num

theorem parse_001 : jsParseFloat "0.01" = some (0.01 : ℚ) := by
  have h : jsParseFloat "0.01" = some (((0:ℕ) : ℚ) + ((1:ℕ) : ℚ) / (10:ℚ) ^ 2) := rfl
  rw [h]; norm_num

theorem parse_333 : jsParseFloat "33.3" = some (33.3 : ℚ) := by
  have h : jsParseFloat "33.3" = some (((33:ℕ) : ℚ) + ((3:ℕ) : ℚ) / (10:ℚ) ^ 1) := rfl
  rw [h]; norm_num

/-- Decoding the sample response yields the sample result. -/
theorem decode_content0 : decodeContent false content0 = Except.ok resp0 := by
  have h : decodeContent false content0 =
      Except.ok ⟨"hello", false, jsParseFloat "0.12", jsParseFloat "0.03",
        jsParseFloat "0.01", jsParseFloat "33.3", 0⟩ := rfl
  rw [h, parse_012, parse_003, parse_001, parse_333]; rfl

/-! ## Claims about the response decoder (C3, C9) -/

/-- Claim C3: decoding `<delim>hello<delim>dbg\n<metric block with
0.12/0.03/0.01/33.3/0>` yields output `hello` with realTime 0.12,
userTime 0.03, sysTime 0.01, CPU share 33.3, exit code 0; and in general a
successful decode takes its output from segment 0 when that is non-empty
and from the captured debug text otherwise, and requires segment 1 to
match the end-anchored metrics grammar (with at least two segments). -/
theorem c3_decode :
    decodeContent false content0 = Except.ok resp0 ∧
    (∀ content tOut r s0 m, decodeContent tOut content = Except.ok r →
      segment content 0 = some s0 → segMatch content = some m →
      r.output = if s0.isEmpty then m.debug else String.mk s0) ∧
    (∀ content tOut r, decodeContent tOut content = Except.ok r →
      (segMatch content).isSome = true ∧ 2 ≤ (sectionsOf content).length) := by
  refine ⟨decode_content0, ?_, ?_⟩
  · intro content tOut r s0 m hdec hseg hsm
    rcases hsec : sectionsOf content with - | ⟨a, - | ⟨b, rest⟩⟩
    · simp only [decodeContent, hsec] at hdec
      exact Except.noConfusion hdec
    · simp only [decodeContent, hsec] at hdec
      exact Except.noConfusion hdec
    · rcases hm2 : matchDebug (String.mk b) with - | m2
      · simp only [decodeContent, hsec, hm2] at hdec
        exact Except.noConfusion hdec
      · simp only [decodeContent, hsec, hm2, Except.ok.injEq] at hdec
        simp only [segment, hsec, List.get?] at hseg
        simp only [segMatch, segment, hsec, List.get?, Option.some_bind] at hsm
        rw [hm2] at hsm
        obtain rfl := hdec.symm
        obtain rfl : a = s0 := Option.some.inj hseg
        obtain rfl : m2 = m := Option.some.inj hsm
        rfl
  · intro content tOut r hdec
    rcases hsec : sectionsOf content with - | ⟨a, - | ⟨b, rest⟩⟩
    · simp only [decodeContent, hsec] at hdec
      exact Except.noConfusion hdec
    · simp only [decodeContent, hsec] at hdec
      exact Except.noConfusion hdec
    · rcases hm2 : matchDebug (String.mk b) with - | m2
      · simp only [decodeContent, hsec, hm2] at hdec
        exact Except.noConfusion hdec
      · refine ⟨?_, by simp [hsec]⟩
        simp only [segMatch, segment, hsec, List.get?, Option.some_bind, hm2,
          Option.isSome_some]

theorem c3_decode_witness :
    resp0.output = if ("hello".data).isEmpty then dbgm0.debug else String.mk "hello".data :=
  c3_decode.2.1 content0 false resp0 "hello".data dbgm0 decode_content0
    (by decide) (by decide)

/-- Claim C9: whenever splitting the remainder on the 16-character
delimiter yields fewer than two segments, or segment 1 does not match the
metrics grammar, decoding fails with a parse error — no partial result is
produced. -/
theorem c9_parse_failure :
    ∀ content tOut, ((sectionsOf content).length < 2 ∨ segMatch content = none) →
      isParseError (decodeContent tOut content) = true := by
  intro content tOut h
  rcases hsec : sectionsOf content with - | ⟨a, - | ⟨b, rest⟩⟩
  · simp only [decodeContent, hsec, isParseError]
  · simp only [decodeContent, hsec, isParseError]
  · rcases h with h | h
    · rw [hsec] at h
      simp only [List.length_cons] at h
      omega
    · have hm : matchDebug (String.mk b) = none := by
        simpa [segMatch, segment, hsec] using h
      simp only [decodeContent, hsec, hm, isParseError]

theorem c9_parse_failure_witness : isParseError (decodeContent false "") = true :=
  c9_parse_failure "" false (Or.inl (by decide))

/-! ## Shared lemmas for the resolver claims -/

/-- A populated, unexpired cache short-circuits `ensureRunUrl`. -/
theorem ensureRunUrl_hit (net : String → HttpResponse) (now : Nat) (st : CacheState)
    (u : String) (h1 : st.runUrl = some u) (h2 : now < st.nextRefreshAt) :
    ensureRunUrl net now st = (Except.ok (), st, []) := by
  unfold ensureRunUrl
  rw [if_pos ⟨by simp [h1], h2⟩]

/-- `ensureRunUrl` never performs the execution `POST`. -/
theorem ensureRunUrl_no_post :
    ∀ net now st res st' tr, ensureRunUrl net now st = (res, st', tr) → Event.post ∉ tr := by
  intro net now st res st' tr h
  unfold ensureRunUrl at h
  split at h
  · injection h with h1 h2
    injection h2 with h21 h22
    rw [← h22]
    simp
  · split at h
    · injection h with h1 h2
      injection h2 with h21 h22
      rw [← h22]
      simp
    · split at h
      · injection h with h1 h2
        injection h2 with h21 h22
        rw [← h22]
        simp
      · split at h
        · injection h with h1 h2
          injection h2 with h21 h22
          rw [← h22]
          simp
        · split at h
          · injection h with h1 h2
            injection h2 with h21 h22
            rw [← h22]
            simp
          · injection h with h1 h2
            injection h2 with h21 h22
            rw [← h22]
            simp

/-! ## Claims about the endpoint resolver (C8, C10) -/

/-- Claim C8: while the cached endpoint is populated and unexpired,
`ensureRunUrl` is a no-op (no fetch, state unchanged); once expired (or
never populated), a successful call performs exactly the two discovery
`GET`s (landing page first, never a `POST`), installs an expiry of
`now + RUN_URL_REFRESH_MS` (850 000 ms ≈ 14 min), and every subsequent
call inside the new window is again a fetch-free no-op. -/
theorem c8_endpoint_cache :
    (∀ net now st u, st.runUrl = some u → now < st.nextRefreshAt →
       ensureRunUrl net now st = (Except.ok (), st, [])) ∧
    (∀ net now st st' tr, (st.runUrl = none ∨ st.nextRefreshAt ≤ now) →
       ensureRunUrl net now st = (Except.ok (), st', tr) →
       st'.nextRefreshAt = now + RUN_URL_REFRESH_MS ∧ st'.runUrl.isSome = true ∧
       tr.length = 2 ∧ tr.get? 0 = some (Event.get "/") ∧ Event.post ∉ tr ∧
       (∀ net2 now2, now2 < st'.nextRefreshAt →
         ensureRunUrl net2 now2 st' = (Except.ok (), st', []))) := by
  refine ⟨fun net now st u h1 h2 => ensureRunUrl_hit net now st u h1 h2, ?_⟩
  intro net now st st' tr hexp h
  have hg : ¬(st.runUrl.isSome = true ∧ now < st.nextRefreshAt) := by
    rcases hexp with h1 | h1
    · rintro ⟨hs, -⟩
      rw [h1] at hs
      exact Bool.noConfusion hs
    · rintro ⟨-, hlt⟩
      omega
  unfold ensureRunUrl at h
  rw [if_neg hg] at h
  split at h
  · injection h with h1 h2
    exact Except.noConfusion h1
  · split at h
    · injection h with h1 h2
      exact Except.noConfusion h1
    · split at h
      · injection h with h1 h2
        exact Except.noConfusion h1
      · split at h
        · injection h with h1 h2
          exact Except.noConfusion h1
        · injection h with h1 h2
          injection h2 with h21 h22
          subst h21
          subst h22
          refine ⟨rfl, rfl, rfl, rfl, by simp, ?_⟩
          intro net2 now2 hlt2
          exact ensureRunUrl_hit net2 now2 _ _ rfl hlt2

theorem c8_endpoint_cache_witness :
    ensureRunUrl netBad 5 ⟨some "u0", 10⟩ = (Except.ok (), ⟨some "u0", 10⟩, []) ∧
    ensureRunUrl netBad 1 ⟨some "zyx9", 850000⟩ =
      (Except.ok (), ⟨some "zyx9", 850000⟩, []) :=
  ⟨c8_endpoint_cache.1 netBad 5 ⟨some "u0", 10⟩ "u0" rfl (by decide),
   (c8_endpoint_cache.2 netW 0 ⟨none, 0⟩ ⟨some "zyx9", 850000⟩
       [Event.get "/", Event.get "/static/ab12-frontend.js"]
       (Or.inl rfl) (by decide)).2.2.2.2.2 netBad 1 (by decide)⟩

/-- Claim C10: a failed resolution (non-success discovery fetch or failed
pattern match) leaves the cached endpoint and its expiry exactly as they
were — `ensureRunUrl` mutates the cache only after both matches succeed. -/
theorem c10_resolution_atomic :
    ∀ net now st e st' tr,
      ensureRunUrl net now st = (Except.error e, st', tr) → st' = st := by
  intro net now st e st' tr h
  unfold ensureRunUrl at h
  split at h
  · injection h with h1 h2
    exact Except.noConfusion h1
  · split at h
    · injection h with h1 h2
      injection h2 with h21 h22
      exact h21.symm
    · split at h
      · injection h with h1 h2
        injection h2 with h21 h22
        exact h21.symm
      · split at h
        · injection h with h1 h2
          injection h2 with h21 h22
          exact h21.symm
        · split at h
          · injection h with h1 h2
            injection h2 with h21 h22
            exact h21.symm
          · injection h with h1 h2
            exact Except.noConfusion h1

theorem c10_resolution_atomic_witness :
    ensureRunUrl netBad 6 ⟨some "u0", 5⟩ =
      (Except.error (TioError.fetchFailed "/" 500), ⟨some "u0", 5⟩, [Event.get "/"]) ∧
    (⟨some "u0", 5⟩ : CacheState) = ⟨some "u0", 5⟩ :=
  ⟨by decide,
   c10_resolution_atomic netBad 6 ⟨some "u0", 5⟩ (TioError.fetchFailed "/" 500)
     ⟨some "u0", 5⟩ [Event.get "/"] (by decide)⟩

/-! ## More sample worlds for the pipeline claims -/

/-- Empty cache. -/
def stW : CacheState := ⟨none, 0⟩

/-- The cache state produced by a resolution against `netW` at time 0. -/
def st1 : CacheState := ⟨some "zyx9", 850000⟩

/-- The discovery trace against `netW`. -/
def trD : List Event := [Event.get "/", Event.get "/static/ab12-frontend.js"]

/-- A signal that is already aborted before the run starts. -/
def sigPre : SignalBehavior := ⟨true, true⟩

/-- Plain options asking for a 700 ms timeout, no signal. -/
def opts700 : TioRunOptions := ⟨"python3", some "", 700, none, none, none⟩

/-- Options carrying the pre-aborted signal. -/
def optsPre : TioRunOptions := ⟨"python3", some "", 700, none, none, some sigPre⟩

/-- World where the `POST` would be aborted but the timer has not fired. -/
def envP : RunEnv := ⟨netW, fun _ => PostResult.aborted, 0, false⟩

/-- World where the internal timer fires and aborts the `POST`. -/
def envT : RunEnv := ⟨netW, fun _ => PostResult.aborted, 0, true⟩

/-- World where the `POST` succeeds with the sample response. -/
def envS : RunEnv := ⟨netW, fun _ => PostResult.success true 200 content0, 0, false⟩

/-- The timeout sentinel result for an effective timeout of 700 ms. -/
def sentinel700 : TioResponse :=
  ⟨"Request timed out after 700ms", true, some (((700 : Int) : ℚ) / 1000),
    some (((700 : Int) : ℚ) / 1000), some (((700 : Int) : ℚ) / 1000), some 0, 124⟩

/-- The body text of a successful (2xx) `POST`, if any. -/
def postContent : PostResult → Option String
  | PostResult.success true _ c => some c
  | _ => none

/-! ## Claims about the transport executor and the pipeline (C4, C1, C5) -/

/-- Claim C4: an abort of the in-flight `POST` with the internal timer
fired returns the timed-out marker normally; an abort with the timer not
fired and the external signal set raises the distinct cancellation error —
the two classifications produce different outcomes from disjoint
conditions; and the timer callback records its firing strictly before
issuing the abort, so the flag is always set when the abort is observed. -/
theorem c4_abort_classification :
    (∀ body sig post, signalPreAborted sig = false → post body = PostResult.aborted →
       executeRequest body sig post true = (Except.ok (none, true), [Event.post])) ∧
    (∀ body sb post, sb.preAborted = false → sb.abortedAtCatch = true →
       post body = PostResult.aborted →
       executeRequest body (some sb) post false =
         (Except.error TioError.executionAborted, [Event.post])) ∧
    (∀ (c : TimerCtx) (pre suf : List TimerAction),
       timerCallback = pre ++ TimerAction.issueAbort :: suf →
       (pre.foldl applyTimerAction c).timedOut = true) := by
  refine ⟨?_, ?_, ?_⟩
  · intro body sig post h1 h2
    simp [executeRequest, h1, h2]
  · intro body sb post h1 h2 h3
    simp [executeRequest, signalPreAborted, signalAborted, h1, h2, h3]
  · intro c pre suf h
    unfold timerCallback at h
    rcases pre with - | ⟨a, pre2⟩
    · rw [List.nil_append] at h
      injection h with ha hb
      exact TimerAction.noConfusion ha
    · rw [List.cons_append] at h
      injection h with ha hb
      subst ha
      rcases pre2 with - | ⟨b, pre3⟩
      · rfl
      · rw [List.cons_append] at hb
        injection hb with hb1 hb2
        have hlen := congrArg List.length hb2
        simp at hlen
        omega

theorem c4_abort_classification_witness :
    executeRequest "b" none (fun _ => PostResult.aborted) true =
      (Except.ok (none, true), [Event.post]) ∧
    executeRequest "b" (some ⟨false, true⟩) (fun _ => PostResult.aborted) false =
      (Except.error TioError.executionAborted, [Event.post]) ∧
    (List.foldl applyTimerAction ⟨false, false⟩ [TimerAction.setTimedOut]).timedOut = true :=
  ⟨c4_abort_classification.1 "b" none (fun _ => PostResult.aborted) rfl rfl,
   c4_abort_classification.2.1 "b" ⟨false, true⟩ (fun _ => PostResult.aborted) rfl rfl rfl,
   c4_abort_classification.2.2 ⟨false, false⟩ [TimerAction.setTimedOut] [] rfl⟩

/-- Claim C1, amended: a cancellation signal already set when `runOnTio`
starts makes the call fail without ever issuing the execution `POST`, and
when endpoint resolution succeeds (or is cached) the failure is the
cancellation error; however, the discovery fetches are *not* prevented —
they run before the signal is first checked. -/
theorem c1_preaborted_no_post :
    ∀ env st code opts sb res st' tr,
      opts.signal = some sb → sb.preAborted = true →
      runOnTio env st code opts = (res, st', tr) →
      Event.post ∉ tr ∧ res.isOk = false ∧
      ((ensureRunUrl env.net env.now st).1 = Except.ok () →
        res = Except.error TioError.executionAborted) := by
  intro env st code opts sb res st' tr hsig0 hpre hrun
  have hsig : (normalizeOptions opts).signal = some sb := by
    simp [normalizeOptions, hsig0]
  have hexec : executeRequest (buildRequestBody code (normalizeOptions opts))
      (normalizeOptions opts).signal env.post env.timerFired =
      (Except.error TioError.executionAborted, []) := by
    simp [executeRequest, signalPreAborted, hsig, hpre]
  rcases hE : ensureRunUrl env.net env.now st with ⟨resE, stE, trE⟩
  rcases resE with e | u
  · simp only [runOnTio, hE] at hrun
    injection hrun with h1 h2
    injection h2 with h21 h22
    subst h1
    subst h22
    refine ⟨ensureRunUrl_no_post _ _ _ _ _ _ hE, rfl, ?_⟩
    intro hok
    simp at hok
  · simp only [runOnTio, hE, hexec] at hrun
    injection hrun with h1 h2
    injection h2 with h21 h22
    subst h1
    subst h22
    have hnp := ensureRunUrl_no_post _ _ _ _ _ _ hE
    refine ⟨by simpa using hnp, rfl, fun _ => rfl⟩

/-- Claim C1 counterexample: with the endpoint cache expired and the
signal pre-aborted, the run still performs both discovery fetches before
raising the cancellation error — contradicting "aborts before any network
fetch". -/
theorem c1_counterexample :
    runOnTio envP ⟨none, 0⟩ "c" optsPre =
      (Except.error TioError.executionAborted, ⟨some "zyx9", 850000⟩, trD) ∧
    Event.get "/" ∈ (runOnTio envP ⟨none, 0⟩ "c" optsPre).2.2 :=
  ⟨by decide, by decide⟩

theorem c1_preaborted_no_post_witness :
    Event.post ∉ ([] : List Event) ∧
    (Except.error TioError.executionAborted : Except TioError TioResponse).isOk = false ∧
    ((ensureRunUrl envP.net envP.now ⟨some "zyx9", 10⟩).1 = Except.ok () →
      (Except.error TioError.executionAborted : Except TioError TioResponse) =
        Except.error TioError.executionAborted) :=
  c1_preaborted_no_post envP ⟨some "zyx9", 10⟩ "c" optsPre sigPre
    (Except.error TioError.executionAborted) ⟨some "zyx9", 10⟩ [] rfl rfl (by decide)

/-- A successful decode reports the `timedOut` flag it was given and the
exit code parsed from the diagnostics block. -/
theorem decode_ok_facts :
    ∀ content tOut r, decodeContent tOut content = Except.ok r →
      r.timedOut = tOut ∧
      ∀ m, segMatch content = some m → r.exitCode = digitsToNat m.exitCode.data := by
  intro content tOut r hdec
  rcases hsec : sectionsOf content with - | ⟨a, - | ⟨b, rest⟩⟩
  · simp only [decodeContent, hsec] at hdec
    exact Except.noConfusion hdec
  · simp only [decodeContent, hsec] at hdec
    exact Except.noConfusion hdec
  · rcases hm2 : matchDebug (String.mk b) with - | m2
    · simp only [decodeContent, hsec, hm2] at hdec
      exact Except.noConfusion hdec
    · simp only [decodeContent, hsec, hm2, Except.ok.injEq] at hdec
      obtain rfl := hdec.symm
      refine ⟨rfl, ?_⟩
      intro m hm
      simp only [segMatch, segment, hsec, List.get?, Option.some_bind] at hm
      rw [hm2] at hm
      obtain rfl : m2 = m := Option.some.inj hm
      rfl

theorem normalizeOptions_signal (o : TioRunOptions) :
    (normalizeOptions o).signal = o.signal := rfl

theorem postContent_some :
    ∀ p c, postContent p = some c → ∃ status, p = PostResult.success true status c := by
  intro p c h
  rcases p with ⟨okF, status, cnt⟩ | - | -
  · rcases okF with - | -
    · simp [postContent] at h
    · simp only [postContent, Option.some.injEq] at h
      exact ⟨status, by rw [h]⟩
  · simp [postContent] at h
  · simp [postContent] at h

/-- Claim C5: a run whose `POST` is aborted by the fired internal timer
returns (rather than throws) the sentinel result — `timedOut = true`, exit
code 124, CPU share 0, and all three time fields equal to the effective
timeout in seconds; a run that completes returns `timedOut = false` with
the exit code parsed from the diagnostics block. -/
theorem c5_run_outcomes :
    ∀ env st code opts res st' tr,
      runOnTio env st code opts = (res, st', tr) →
      (signalPreAborted opts.signal = false →
       (ensureRunUrl env.net env.now st).1 = Except.ok () →
       env.post (buildRequestBody code (normalizeOptions opts)) = PostResult.aborted →
       env.timerFired = true →
       res = Except.ok
         ⟨"Request timed out after " ++ toString (effectiveTimeout opts.timeout) ++ "ms",
           true, some ((effectiveTimeout opts.timeout : ℚ) / 1000),
           some ((effectiveTimeout opts.timeout : ℚ) / 1000),
           some ((effectiveTimeout opts.timeout : ℚ) / 1000), some 0, 124⟩) ∧
      (∀ r content m, res = Except.ok r →
       postContent (env.post (buildRequestBody code (normalizeOptions opts))) = some content →
       segMatch content = some m →
       r.timedOut = false ∧ r.exitCode = digitsToNat m.exitCode.data) := by
  intro env st code opts res st' tr hrun
  rcases hE : ensureRunUrl env.net env.now st with ⟨resE, stE, trE⟩
  rcases resE with e | u
  · simp only [runOnTio, hE] at hrun
    injection hrun with h1 h2
    subst h1
    constructor
    · intro _ hok _ _
      simp at hok
    · intro r content m hres _ _
      exact absurd hres (by simp)
  · constructor
    · intro hsg hok hP hT
      have hsg2 : signalPreAborted (normalizeOptions opts).signal = false := by
        rw [normalizeOptions_signal]
        exact hsg
      have hexec : executeRequest (buildRequestBody code (normalizeOptions opts))
          (normalizeOptions opts).signal env.post env.timerFired =
          (Except.ok (none, true), [Event.post]) := by
        simp [executeRequest, hsg2, hP, hT]
      simp only [runOnTio, hE, hexec] at hrun
      injection hrun with h1 h2
      exact h1.symm
    · intro r content m hres hpc hsm
      obtain ⟨status, hP⟩ := postContent_some _ _ hpc
      rcases hS : signalPreAborted (normalizeOptions opts).signal with - | -
      · have hexec : executeRequest (buildRequestBody code (normalizeOptions opts))
            (normalizeOptions opts).signal env.post env.timerFired =
            (Except.ok (some content, false), [Event.post]) := by
          simp [executeRequest, hS, hP]
        simp only [runOnTio, hE, hexec] at hrun
        injection hrun with h1 h2
        rw [hres] at h1
        have hd := decode_ok_facts content false r h1
        exact ⟨hd.1, hd.2 m hsm⟩
      · have hexec : executeRequest (buildRequestBody code (normalizeOptions opts))
            (normalizeOptions opts).signal env.post env.timerFired =
            (Except.error TioError.executionAborted, []) := by
          simp [executeRequest, hS]
        simp only [runOnTio, hE, hexec] at hrun
        injection hrun with h1 h2
        rw [hres] at h1
        exact Except.noConfusion h1

theorem c5_run_outcomes_witness :
    ((Except.ok sentinel700 : Except TioError TioResponse) = Except.ok
      ⟨"Request timed out after " ++ toString (effectiveTimeout 700) ++ "ms", true,
        some ((effectiveTimeout 700 : ℚ) / 1000), some ((effectiveTimeout 700 : ℚ) / 1000),
        some ((effectiveTimeout 700 : ℚ) / 1000), some 0, 124⟩) ∧
    resp0.timedOut = false ∧ resp0.exitCode = digitsToNat dbgm0.exitCode.data :=
  ⟨(c5_run_outcomes envT stW "c" opts700 (Except.ok sentinel700) st1
      (trD ++ [Event.post]) rfl).1 rfl (by decide) rfl rfl,
   (c5_run_outcomes envS stW "c" opts700 (Except.ok resp0) st1
      (trD ++ [Event.post])
      (by rw [show runOnTio envS stW "c" opts700 =
            (decodeContent false content0, st1, trD ++ [Event.post]) from rfl,
          decode_content0])).2 resp0 content0 dbgm0 rfl rfl (by decide)⟩

end TioRun
